import Mathlib

/-!
Formal model of the transcription orchestration pipeline of this repository
(src/app/services.py, src/app/asr_providers.py), as a shallow embedding:
the pure decision logic is translated into executable Lean definitions and
the properties of the specification are settled against them.  External
collaborators (the vendor recognition engines, object storage, the database)
are modelled as explicit environment parameters, and the network calls the
pipeline makes are recorded in an ordered operation trace.  The Python
string primitives the code relies on (str.strip, str.split, str.lower,
int, the in operator) are given structurally recursive definitions over
character lists so that every definition evaluates inside the kernel.
-/

/- ===================== Python string primitives ===================== -/

/-- Drop leading whitespace characters from a character list. -/
def dropLeadingWs : List Char → List Char
  | [] => []
  | c :: cs => if c.isWhitespace then dropLeadingWs cs else c :: cs

/-- Python str.strip(): remove leading and trailing whitespace. -/
def pyStrip (s : String) : String :=
  ⟨List.reverse (dropLeadingWs (List.reverse (dropLeadingWs s.data)))⟩

/-- Python str.split(sep) for a single-character separator: splitting the
empty string yields one empty field, and every separator occurrence starts
a new field. -/
def splitOnChar (sep : Char) : List Char → List (List Char)
  | [] => [[]]
  | c :: cs =>
      let r := splitOnChar sep cs
      if c == sep then [] :: r
      else
        match r with
        | [] => [[c]]
        | g :: gs => (c :: g) :: gs

/-- Python str.lower() restricted to character-wise lowering. -/
def pyLower (s : String) : String := ⟨s.data.map Char.toLower⟩

/-- Whether the first list is an initial segment of the second. -/
def isPrefixList : List Char → List Char → Bool
  | [], _ => true
  | _ :: _, [] => false
  | p :: ps, c :: cs => p == c && isPrefixList ps cs

/-- Python substring membership (the in operator on str). -/
def containsSubList (needle : List Char) : List Char → Bool
  | [] => isPrefixList needle []
  | c :: cs => isPrefixList needle (c :: cs) || containsSubList needle cs

/-- Value of a digit list read in base ten. -/
def digitsVal (cs : List Char) : Nat :=
  cs.foldl (fun n c => n * 10 + (c.toNat - 48)) 0

/-- Python int() on a digit string as an optional value: some value on a
non-empty all-digit string, none for the ValueError raised otherwise. -/
def pyToNat? (cs : List Char) : Option Nat :=
  if cs ≠ [] ∧ cs.all Char.isDigit then some (digitsVal cs) else none

/- ===================== Provider-level definitions ===================== -/

/-- Length-based confidence of AzureProvider.transcribe_audio
(asr_providers.py lines 268-279; identical code in services.py lines
193-204).  Floats are modelled as exact rationals; the claims under study
concern the piecewise structure, not binary rounding. -/
def azureConfidence (textLength : Nat) (highAccuracy : Bool) : ℚ :=
  let baseConfidence : ℚ := if highAccuracy then 5/100 else 0
  if textLength > 50 then min (98/100) (95/100 + baseConfidence)
  else if textLength > 20 then min (95/100) (85/100 + baseConfidence)
  else if textLength > 5 then min (90/100) (75/100 + baseConfidence)
  else min (85/100) (60/100 + baseConfidence)

/-- Length-based confidence of GroqProvider.transcribe_audio
(asr_providers.py lines 452-461): Groq supplies no native confidence, so it
is estimated from the text length.  Note the table differs from the Azure
one and takes no high-accuracy bonus. -/
def groqConfidence (textLength : Nat) : ℚ :=
  if textLength > 50 then 95/100
  else if textLength > 20 then 90/100
  else if textLength > 5 then 85/100
  else 75/100

/-- The derived-confidence function exactly as worded by the specification
(spec section 4.1): length>50 gives 0.95 (+0.05 bonus if highAccuracy,
capped 0.98); length>20 gives 0.85 (+bonus, cap 0.95); length>5 gives 0.75
(+bonus, cap 0.90); else 0.60 (+bonus, cap 0.85).  Stated from the words of
the spec, for comparison with the source-derived functions. -/
def specConfidence (l : Nat) (highAccuracy : Bool) : ℚ :=
  let bonus : ℚ := if highAccuracy then 5/100 else 0
  if l > 50 then min (98/100) (95/100 + bonus)
  else if l > 20 then min (95/100) (85/100 + bonus)
  else if l > 5 then min (90/100) (75/100 + bonus)
  else min (85/100) (60/100 + bonus)

/-- The per-branch cap stated by the spec for the derived confidence. -/
def confidenceCap (l : Nat) : ℚ :=
  if l > 50 then 98/100
  else if l > 20 then 95/100
  else if l > 5 then 90/100
  else 85/100

/-- Result dictionary returned by a transcribe call on its non-error path:
the transcription text together with the optional no_speech_detected key
(an absent key is read through dict.get with default False, hence a plain
Bool defaulting to false). -/
structure TranscribeRes where
  transcription : String
  noSpeechDetected : Bool := false
  deriving Repr, DecidableEq

/-- Post-processing of the Groq vendor response (asr_providers.py lines
432-443): the vendor text is stripped; an empty result is returned with
no_speech_detected set to true, a non-empty one without the key. -/
def groqResult (vendorText : String) : TranscribeRes :=
  let t := pyStrip vendorText
  if t == "" then ⟨"", true⟩ else ⟨t, false⟩

/-- One Deepgram alternative; only its transcript matters for the
empty-transcript classification. -/
structure DGAlternative where
  transcript : String
  deriving Repr, DecidableEq

/-- Shape of the Deepgram response relevant to the classification in
asr_providers.py lines 557-603: either no results object at all, or a list
of channels each holding a list of alternatives. -/
inductive DGResponse where
  | noResults
  | channels (chans : List (List DGAlternative))
  deriving Repr, DecidableEq

/-- Post-processing of the Deepgram vendor response (asr_providers.py lines
557-603): a missing results object, an empty channel list, an empty
alternative list, or an empty stripped transcript all return
no_speech_detected true; otherwise the stripped transcript is returned. -/
def deepgramResult (resp : DGResponse) : TranscribeRes :=
  match resp with
  | .noResults => ⟨"", true⟩
  | .channels [] => ⟨"", true⟩
  | .channels ([] :: _) => ⟨"", true⟩
  | .channels ((alt :: _) :: _) =>
      let t := pyStrip alt.transcript
      if t == "" then ⟨"", true⟩ else ⟨t, false⟩

/-- Whether the Deepgram response carries an empty (stripped) transcript or
no transcript at all: the condition the code actually tests when it sets
no_speech_detected. -/
def deepgramTranscriptEmpty : DGResponse → Bool
  | .noResults => true
  | .channels [] => true
  | .channels ([] :: _) => true
  | .channels ((alt :: _) :: _) => pyStrip alt.transcript == ""

/-- Kinds of entries collected in recognition_errors by the Azure event
handlers (asr_providers.py lines 215-238). -/
inductive RecErrKind where
  | noMatch
  | canceled
  | sessionCanceled
  deriving Repr, DecidableEq

/-- HTTP status of the HTTPException raised by
AzureProvider._handle_recognition_errors (asr_providers.py lines 328-367):
any Canceled or SessionCanceled entry gives 500; otherwise any NoMatch
entry gives 400; otherwise 500. -/
def handleRecognitionErrorsStatus (errs : List RecErrKind) : Nat :=
  if errs.any (fun e => e == .canceled || e == .sessionCanceled) then 500
  else if errs.any (fun e => e == .noMatch) then 400
  else 500

/-- The blanket except-Exception clause closing transcribe_audio
(asr_providers.py lines 320-326): every exception raised inside the try
block, including the HTTPExceptions raised by _handle_recognition_errors,
is re-raised as HTTPException with status 500. -/
def exceptWrapStatus (_inner : Nat) : Nat := 500

/-- Observable outcome of one AzureProvider.transcribe_audio call. -/
inductive AzureCallResult where
  | ok (res : TranscribeRes)
  | httpError (status : Nat)
  deriving Repr, DecidableEq

/-- End-of-session branch of AzureProvider.transcribe_audio
(asr_providers.py lines 264-326): recognized segments are joined with a
space; with no segments but collected errors, _handle_recognition_errors
raises and its exception is swallowed and re-raised with status 500 by the
enclosing except clause; with neither, an empty result is returned with
no_speech_detected true. -/
def azureTranscribeOutcome (results : List String) (errs : List RecErrKind) :
    AzureCallResult :=
  if results.length > 0 then
    .ok ⟨String.intercalate " " results, false⟩
  else if errs.length > 0 then
    .httpError (exceptWrapStatus (handleRecognitionErrorsStatus errs))
  else
    .ok ⟨"", true⟩

/-- Recognition wait bound of transcribe_audio (services.py line 176,
asr_providers.py line 252): 600 seconds in high-accuracy mode, 300
otherwise. -/
def recognizeTimeout (highAccuracy : Bool) : Nat :=
  if highAccuracy then 600 else 300

/- ===================== Batch pipeline definitions ===================== -/

/-- One row of the audio_files table, with the columns the pipeline reads
(services.py lines 319-327). -/
structure AudioRow where
  filePath : String
  deviceId : String
  localDate : String
  timeBlock : String
  transcriptionsStatus : String
  deriving Repr, DecidableEq

/-- Body of a fetch-and-transcribe request (app/models.py
FetchAndTranscribeRequest). -/
structure FetchRequest where
  deviceId : Option String := none
  localDate : Option String := none
  timeBlocks : Option (List String) := none
  filePaths : Option (List String) := none
  deriving Repr, DecidableEq

/-- Python truthiness of an optional string field: None and the empty
string are falsy. -/
def truthyStr : Option String → Bool
  | none => false
  | some s => s != ""

/-- Python truthiness of an optional list field: None and the empty list
are falsy. -/
def truthyList : Option (List String) → Bool
  | none => false
  | some l => !l.isEmpty

/-- One unit of work of the batch loop: a file path together with the
device/date/time-block triple extracted for it (services.py lines
391-427). -/
structure WorkItem where
  filePath : String
  deviceId : String
  localDate : String
  timeBlock : String
  deriving Repr, DecidableEq

/-- External calls the batch loop can issue for one item, recorded in
order.  The readBack constructor stands for a reconciling select on the
vibe_whisper table by the dedupe key; it is part of the vocabulary so that
its absence from every trace is expressible. -/
inductive Op where
  | updateStatus (filePath status : String)
  | download (filePath : String)
  | transcribe (filePath : String) (detailed highAccuracy : Bool)
  | upsert (deviceId date timeBlock transcription : String)
  | readBack (deviceId date timeBlock : String)
  deriving Repr, DecidableEq

/-- Whether an operation is a vibe_whisper upsert. -/
def Op.isUpsert : Op → Bool
  | .upsert _ _ _ _ => true
  | _ => false

/-- Whether an operation is a reconciling read-back. -/
def Op.isReadBack : Op → Bool
  | .readBack _ _ _ => true
  | _ => false

/-- Whether an operation is an object-storage download. -/
def Op.isDownload : Op → Bool
  | .download _ => true
  | _ => false

/-- Whether an operation is a recognition call. -/
def Op.isTranscribe : Op → Bool
  | .transcribe _ _ _ => true
  | _ => false

/-- Holds of every operation except a recognition call invoked with a
detailed flag or without the high-accuracy flag. -/
def Op.goodRecognizeCall : Op → Bool
  | .transcribe _ d hi => !d && hi
  | _ => true

/-- Outcome of the fetch-plus-recognize phase for one file, as observed by
the batch loop: an S3 ClientError from download_file, an exception raised
by transcribe_audio carrying its message, or a result dictionary. -/
inductive FetchOutcome where
  | s3Error (msg : String)
  | recognizeError (msg : String)
  | ok (res : TranscribeRes)
  deriving Repr, DecidableEq

/-- Environment of one batch invocation: the audio_files table served by
the database query, whether that query itself raises, the per-path outcome
of download-plus-recognition, whether the vibe_whisper upsert for a path
returns data, and the wall-clock hour in Asia/Tokyo at classification
time. -/
structure BatchEnv where
  audioTable : List AudioRow
  queryFails : Bool
  fetch : String → FetchOutcome
  upsertAck : String → Bool
  jstHour : Nat

/-- The hardcoded processing-restriction table (services.py lines
446-453): one device with hours 23 and 0-5 blacked out. -/
def restrictedDeviceId : String := "9f7d6e27-98c3-4c19-bdfb-f7fda58b9a93"

/-- The skip_hours list of the restricted device:
list(range(23, 24)) + list(range(0, 6)). -/
def restrictedSkipHours : List Nat := List.range' 23 1 ++ List.range 6

/-- Hour of a time block, as computed by int(time_block.split('-')[0])
(services.py line 457); none models the ValueError raised by int on a
malformed block. -/
def timeBlockHour (tb : String) : Option Nat :=
  pyToNat? ((splitOnChar '-' tb.data).headD [])

/-- The sentinel transcription stored in place of an empty one
(services.py line 514); the spec renders this Japanese literal as the
sentinel string for no speech. -/
def noSpeechSentinel : String := "発話なし"

/-- The is_quota_exceeded flag computed at services.py lines 498-511: the
stripped transcript is empty, the result carries no no_speech_detected
key, and the JST wall-clock hour is before 9.  The batch loop computes and
logs this flag but never reads it afterwards. -/
def quotaSuspect (jstHour : Nat) (res : TranscribeRes) : Bool :=
  pyStrip res.transcription == "" && !res.noSpeechDetected && decide (jstHour < 9)

/-- Python substring test applied at services.py line 608: whether the
lowercased message contains the phrase quota exceeded. -/
def containsQuotaExceeded (msg : String) : Bool :=
  containsSubList "quota exceeded".data (pyLower msg).data

/-- Status written by the generic exception handler of the batch loop
(services.py lines 600-618). -/
def errorStatusFor (msg : String) : String :=
  if containsQuotaExceeded msg then "quota_exceeded" else "failed"

/-- Transcription actually stored: the stripped text, or the no-speech
sentinel when it is empty (services.py lines 496 and 513-514). -/
def finalTranscription (res : TranscribeRes) : String :=
  let t := pyStrip res.transcription
  if t == "" then noSpeechSentinel else t

/-- How one item ends: skipped items appear in neither result list,
successful ones in successfully_transcribed, errored ones in
error_files. -/
inductive ItemOutcome where
  | skipped
  | success
  | errored
  deriving Repr, DecidableEq

/-- Fetch, recognize, persist and status-update phase for one item
(services.py lines 479-620), entered after the blackout gate: the file is
downloaded (an S3 ClientError marks the item failed), transcribed (an
exception marks it failed, or quota_exceeded when its message contains the
phrase quota exceeded), the final transcription is upserted exactly once,
and when the upsert returns no data an exception is raised and the generic
handler marks the item failed with no retry and no read-back; otherwise
the status is updated to completed. -/
def processItemMain (env : BatchEnv) (it : WorkItem) : List Op × ItemOutcome :=
  match env.fetch it.filePath with
  | .s3Error _msg =>
      ([Op.download it.filePath, Op.updateStatus it.filePath "failed"], .errored)
  | .recognizeError msg =>
      ([Op.download it.filePath, Op.transcribe it.filePath false true,
        Op.updateStatus it.filePath (errorStatusFor msg)], .errored)
  | .ok res =>
      let pre := [Op.download it.filePath, Op.transcribe it.filePath false true,
                  Op.upsert it.deviceId it.localDate it.timeBlock (finalTranscription res)]
      if env.upsertAck it.filePath then
        (pre ++ [Op.updateStatus it.filePath "completed"], .success)
      else
        (pre ++ [Op.updateStatus it.filePath "failed"], .errored)

/-- Whole per-item pipeline including the processing-restriction gate
(services.py lines 434-620): for the restricted device, a time block whose
hour parses into the skip_hours list moves the status directly to skipped
and the loop continues with the next file; a block whose hour does not
parse raises ValueError inside the try and the generic handler marks the
item failed. -/
def processItem (env : BatchEnv) (it : WorkItem) : List Op × ItemOutcome :=
  if it.deviceId == restrictedDeviceId then
    match timeBlockHour it.timeBlock with
    | none => ([Op.updateStatus it.filePath "failed"], .errored)
    | some h =>
        if h ∈ restrictedSkipHours then
          ([Op.updateStatus it.filePath "skipped"], .skipped)
        else processItemMain env it
  else processItemMain env it

/-- Row filter of the audio_files query (services.py lines 319-327):
device_id and local_date must match, transcriptions_status must equal
pending, and when the time_blocks field is truthy the time block must be
one of the requested ones. -/
def rowMatches (req : FetchRequest) (r : AudioRow) : Bool :=
  r.deviceId == req.deviceId.getD "" && r.localDate == req.localDate.getD "" &&
  r.transcriptionsStatus == "pending" &&
  (if truthyList req.timeBlocks then (req.timeBlocks.getD []).contains r.timeBlock else true)

/-- Resolution of the device-plus-date request shape against the
audio_files table. -/
def resolveDeviceDate (table : List AudioRow) (req : FetchRequest) : List AudioRow :=
  table.filter (rowMatches req)

/-- Positional parse of an explicit file path (services.py lines 409-427):
segments prefix/deviceId/localDate/timeBlock/filename; a path with fewer
than five segments is dropped. -/
def parsePath (p : String) : Option WorkItem :=
  let parts := splitOnChar '/' p.data
  if 5 ≤ parts.length then
    some ⟨p, ⟨parts.getD 1 []⟩, ⟨parts.getD 2 []⟩, ⟨parts.getD 3 []⟩⟩
  else none

/-- Work items built from an explicit path list. -/
def itemsFromPaths (paths : List String) : List WorkItem :=
  paths.filterMap parsePath

/-- Sequential batch loop over the work items, concatenating the traces
and collecting the successfully_transcribed and error_files lists in
order. -/
def runItems (env : BatchEnv) : List WorkItem → List Op × List WorkItem × List WorkItem
  | [] => ([], [], [])
  | it :: rest =>
      let step := processItem env it
      let tail := runItems env rest
      (step.1 ++ tail.1,
       (if step.2 == .success then [it] else []) ++ tail.2.1,
       (if step.2 == .errored then [it] else []) ++ tail.2.2)

/-- Fields of the batch response the spec talks about: the top-level
status string, the summary counts, and the two per-item lists. -/
structure BatchResult where
  status : String
  totalFiles : Nat
  pendingProcessed : Nat
  errorCount : Nat
  succeeded : List WorkItem
  failed : List WorkItem
  deriving Repr, DecidableEq

/-- An HTTPException aborting the whole batch before any item begins. -/
structure BatchError where
  statusCode : Nat
  detail : String
  deriving Repr, DecidableEq

/-- Top level of fetch_and_transcribe_files (services.py lines 307-657):
the device-plus-date shape queries the audio_files table (a query error
aborts with 500, an empty resolution returns an empty success summary);
the explicit-paths shape parses each path; neither shape populated aborts
with 400; the resolved items are processed sequentially and a success
response is assembled from the collected lists. -/
def fetchAndTranscribeFiles (env : BatchEnv) (req : FetchRequest) :
    Except BatchError (List Op × BatchResult) :=
  if truthyStr req.deviceId && truthyStr req.localDate then
    if env.queryFails then
      .error ⟨500, "database query error"⟩
    else
      let rows := resolveDeviceDate env.audioTable req
      if rows.isEmpty then
        .ok ([], ⟨"success", 0, 0, 0, [], []⟩)
      else
        let items := rows.map fun r => WorkItem.mk r.filePath r.deviceId r.localDate r.timeBlock
        let run := runItems env items
        .ok (run.1, ⟨"success", items.length, run.2.1.length, run.2.2.length, run.2.1, run.2.2⟩)
  else if truthyList req.filePaths then
    let paths := req.filePaths.getD []
    let items := itemsFromPaths paths
    let run := runItems env items
    .ok (run.1, ⟨"success", paths.length, run.2.1.length, run.2.2.length, run.2.1, run.2.2⟩)
  else
    .error ⟨400, "device_id + local_date or file_paths required"⟩

/- ===================== Helper lemmas ===================== -/

/-- Closed form of the Azure confidence without the high-accuracy bonus. -/
lemma azureConfidence_false_eq (l : Nat) :
    azureConfidence l false =
      if l > 50 then 95/100 else if l > 20 then 85/100
      else if l > 5 then 75/100 else 60/100 := by
  simp only [azureConfidence]
  split_ifs <;> first | contradiction | norm_num [min_def]

/-- Closed form of the Azure confidence with the high-accuracy bonus. -/
lemma azureConfidence_true_eq (l : Nat) :
    azureConfidence l true =
      if l > 50 then 98/100 else if l > 20 then 90/100
      else if l > 5 then 80/100 else 65/100 := by
  simp only [azureConfidence]
  split_ifs <;> first | contradiction | norm_num [min_def]

/- ===================== Claims ===================== -/

/-- C4, counterexample: the Groq provider supplies no native confidence,
yet for a transcript of length 10 it derives 0.85 where the documented
piecewise function gives 0.75, so the claim fails as stated. -/
theorem C4_counterexample :
    groqConfidence 10 = 85/100 ∧ specConfidence 10 false = 75/100 ∧
    groqConfidence 10 ≠ specConfidence 10 false := by
  refine ⟨?_, ?_, ?_⟩ <;> norm_num [groqConfidence, specConfidence, min_def]

/-- C4, amended: the Azure provider derives confidence exactly by the
documented piecewise function, monotonically non-decreasing in the length
and never above the stated cap; the Groq provider instead uses the
thresholds 0.75 / 0.85 / 0.90 / 0.95 with no bonus, likewise monotone and
below the caps. -/
theorem C4_confidence_amended :
    (∀ l hi, azureConfidence l hi = specConfidence l hi) ∧
    (∀ l₁ l₂ hi, l₁ ≤ l₂ → azureConfidence l₁ hi ≤ azureConfidence l₂ hi) ∧
    (∀ l hi, azureConfidence l hi ≤ confidenceCap l) ∧
    (∀ l₁ l₂, l₁ ≤ l₂ → groqConfidence l₁ ≤ groqConfidence l₂) ∧
    (∀ l, groqConfidence l ≤ confidenceCap l) := by
  refine ⟨fun l hi => rfl, ?_, ?_, ?_, ?_⟩
  · intro l₁ l₂ hi h
    cases hi
    · rw [azureConfidence_false_eq, azureConfidence_false_eq]
      split_ifs <;> first | (exfalso; omega) | norm_num
    · rw [azureConfidence_true_eq, azureConfidence_true_eq]
      split_ifs <;> first | (exfalso; omega) | norm_num
  · intro l hi
    cases hi
    · rw [azureConfidence_false_eq]
      unfold confidenceCap
      split_ifs <;> norm_num
    · rw [azureConfidence_true_eq]
      unfold confidenceCap
      split_ifs <;> norm_num
  · intro l₁ l₂ h
    unfold groqConfidence
    split_ifs <;> first | (exfalso; omega) | norm_num
  · intro l
    unfold groqConfidence confidenceCap
    split_ifs <;> norm_num

/-- C4, witness for the amended theorem at concrete lengths. -/
theorem C4_confidence_amended_witness :
    azureConfidence 10 true = specConfidence 10 true ∧
    azureConfidence 10 true ≤ azureConfidence 60 true ∧
    azureConfidence 60 true ≤ confidenceCap 60 ∧
    groqConfidence 10 ≤ groqConfidence 60 ∧
    groqConfidence 60 ≤ confidenceCap 60 :=
  ⟨C4_confidence_amended.1 10 true,
   C4_confidence_amended.2.1 10 60 true (by norm_num),
   C4_confidence_amended.2.2.1 60 true,
   C4_confidence_amended.2.2.2.1 10 60 (by norm_num),
   C4_confidence_amended.2.2.2.2 60⟩

/-- C5, counterexample: a Deepgram response with a well-formed alternative
whose transcript is only whitespace carries no explicit empty-result
signal, and a Groq response with empty text carries none either, yet both
come back with noSpeechDetected set to true. -/
theorem C5_counterexample :
    (deepgramResult (DGResponse.channels [[⟨" "⟩]])).noSpeechDetected = true ∧
    (groqResult "").noSpeechDetected = true := by
  constructor <;> decide

/-- C5, amended: the Groq and Deepgram adapters set noSpeechDetected
purely from transcript emptiness — for Groq exactly when the stripped text
is empty, for Deepgram exactly when the response lacks
results/channels/alternatives or the first transcript strips to empty — so
no explicit vendor silence signal is consulted. -/
theorem C5_flag_from_emptiness :
    (∀ t, (groqResult t).noSpeechDetected = (pyStrip t == "")) ∧
    (∀ r, (deepgramResult r).noSpeechDetected = deepgramTranscriptEmpty r) := by
  constructor
  · intro t
    simp only [groqResult]
    split <;> simp_all
  · intro r
    rcases r with _ | chans
    · rfl
    · rcases chans with _ | ⟨alts, rest⟩
      · rfl
      · rcases alts with _ | ⟨alt, as⟩
        · rfl
        · simp only [deepgramResult, deepgramTranscriptEmpty]
          split <;> simp_all

/-- C8: with a recognition session that produced no recognized segment and
exactly one NoMatch error, _handle_recognition_errors raises an
HTTPException with status 400, but the blanket except clause of
transcribe_audio re-raises it with status 500, so the single-file call
fails with 500 where the spec states 400. -/
theorem C8_noMatch_surfaces_500 :
    handleRecognitionErrorsStatus [RecErrKind.noMatch] = 400 ∧
    azureTranscribeOutcome [] [RecErrKind.noMatch] = AzureCallResult.httpError 500 := by
  constructor <;> decide

/-- A pending-status row and a device-plus-date request used as concrete
inputs for claim C3. -/
def c3CompletedRow : AudioRow :=
  ⟨"files/d1/2025-07-19/14-30/audio.wav", "d1", "2025-07-19", "14-30", "completed"⟩

/-- The device-plus-date request matching c3CompletedRow. -/
def c3Request : FetchRequest :=
  { deviceId := some "d1", localDate := some "2025-07-19" }

/-- C3, counterexample: an artifact matching the requested device and date
but already in status completed is not selected by the resolver, because
the query filters on transcriptions_status equal to pending. -/
theorem C3_counterexample :
    c3CompletedRow.deviceId = c3Request.deviceId.getD "" ∧
    c3CompletedRow.localDate = c3Request.localDate.getD "" ∧
    c3CompletedRow.transcriptionsStatus = "completed" ∧
    resolveDeviceDate [c3CompletedRow] c3Request = [] := by
  refine ⟨rfl, rfl, rfl, ?_⟩
  decide

/-- C3, amended: resolution selects exactly the artifacts matching the
device and date whose status is pending, optionally restricted to the
supplied time blocks; artifacts in any other status, including completed,
are never selected, so explicit reselection cannot force reprocessing. -/
theorem C3_resolution_pending_only (table : List AudioRow) (req : FetchRequest)
    (r : AudioRow) :
    r ∈ resolveDeviceDate table req ↔
      r ∈ table ∧ r.deviceId = req.deviceId.getD "" ∧
      r.localDate = req.localDate.getD "" ∧
      r.transcriptionsStatus = "pending" ∧
      (truthyList req.timeBlocks = true → r.timeBlock ∈ req.timeBlocks.getD []) := by
  unfold resolveDeviceDate rowMatches
  rw [List.mem_filter]
  by_cases ht : truthyList req.timeBlocks = true <;>
    simp [ht, and_assoc]

/-- Concrete environment for claim C2: the store returns no data for the
upsert of the single work item. -/
def c2Env : BatchEnv :=
  { audioTable := [], queryFails := false,
    fetch := fun _ => FetchOutcome.ok ⟨"hello", false⟩,
    upsertAck := fun _ => false, jstHour := 12 }

/-- The work item processed in the C2 scenario. -/
def c2Item : WorkItem :=
  ⟨"files/d1/2025-07-19/14-30/a.wav", "d1", "2025-07-19", "14-30"⟩

/-- C2, counterexample: when the upsert response carries no data the item
is declared failed right away — the trace holds exactly one upsert,
no second attempt and no reconciling read-back before the failed status
write, refuting the retry-and-read-back discipline as claimed. -/
theorem C2_counterexample :
    processItem c2Env c2Item =
      ([Op.download "files/d1/2025-07-19/14-30/a.wav",
        Op.transcribe "files/d1/2025-07-19/14-30/a.wav" false true,
        Op.upsert "d1" "2025-07-19" "14-30" "hello",
        Op.updateStatus "files/d1/2025-07-19/14-30/a.wav" "failed"],
       ItemOutcome.errored) ∧
    (processItem c2Env c2Item).1.countP (fun o => Op.isUpsert o) = 1 ∧
    (processItem c2Env c2Item).1.countP (fun o => Op.isReadBack o) = 0 := by
  refine ⟨?_, ?_, ?_⟩ <;> decide

/-- C2, amended: for every item that reaches persistence, the upsert is
attempted exactly once; when the store reports no data the item is
immediately declared failed — the raised exception lands in the generic
handler which writes status failed — with no retry, no backoff and no
reconciling read-back. -/
theorem C2_single_upsert_no_readback (env : BatchEnv) (it : WorkItem)
    (res : TranscribeRes)
    (hdev : it.deviceId ≠ restrictedDeviceId)
    (hfetch : env.fetch it.filePath = FetchOutcome.ok res)
    (hack : env.upsertAck it.filePath = false) :
    processItem env it =
      ([Op.download it.filePath, Op.transcribe it.filePath false true,
        Op.upsert it.deviceId it.localDate it.timeBlock (finalTranscription res),
        Op.updateStatus it.filePath "failed"], ItemOutcome.errored) ∧
    (processItem env it).1.countP (fun o => Op.isUpsert o) = 1 ∧
    (processItem env it).1.countP (fun o => Op.isReadBack o) = 0 := by
  have hb : (it.deviceId == restrictedDeviceId) = false := beq_eq_false_iff_ne.mpr hdev
  have h1 : processItem env it = processItemMain env it := by
    unfold processItem
    rw [hb]
    simp
  have h2 : processItemMain env it =
      ([Op.download it.filePath, Op.transcribe it.filePath false true,
        Op.upsert it.deviceId it.localDate it.timeBlock (finalTranscription res),
        Op.updateStatus it.filePath "failed"], ItemOutcome.errored) := by
    simp [processItemMain, hfetch, hack]
  refine ⟨h1.trans h2, ?_, ?_⟩ <;> rw [h1, h2] <;>
    simp [Op.isUpsert, Op.isReadBack]

/-- C2, witness: the amended theorem applied to the concrete no-data
environment. -/
theorem C2_single_upsert_no_readback_witness :
    c2Item.deviceId ≠ restrictedDeviceId ∧
    c2Env.fetch c2Item.filePath = FetchOutcome.ok ⟨"hello", false⟩ ∧
    c2Env.upsertAck c2Item.filePath = false ∧
    (processItem c2Env c2Item =
      ([Op.download c2Item.filePath, Op.transcribe c2Item.filePath false true,
        Op.upsert c2Item.deviceId c2Item.localDate c2Item.timeBlock
          (finalTranscription ⟨"hello", false⟩),
        Op.updateStatus c2Item.filePath "failed"], ItemOutcome.errored) ∧
     (processItem c2Env c2Item).1.countP (fun o => Op.isUpsert o) = 1 ∧
     (processItem c2Env c2Item).1.countP (fun o => Op.isReadBack o) = 0) :=
  ⟨by decide, rfl, rfl,
   C2_single_upsert_no_readback c2Env c2Item ⟨"hello", false⟩ (by decide) rfl rfl⟩

/-- Concrete environment for claim C1: recognition returns an empty
transcript with no no_speech_detected key, the upsert is acknowledged, and
the JST clock reads hour 8. -/
def c1Env : BatchEnv :=
  { audioTable := [], queryFails := false,
    fetch := fun _ => FetchOutcome.ok ⟨"", false⟩,
    upsertAck := fun _ => true, jstHour := 8 }

/-- The work item processed in the C1 scenario. -/
def c1Item : WorkItem :=
  ⟨"files/d1/2025-07-19/02-30/a.wav", "d1", "2025-07-19", "02-30"⟩

/-- C1, counterexample: before 09:00 JST an empty transcript without a
silence signal is flagged quota-suspect, yet the persisted status becomes
completed, not quota_exceeded — the computed flag never reaches the status
write. -/
theorem C1_counterexample :
    c1Env.jstHour < 9 ∧
    quotaSuspect c1Env.jstHour ⟨"", false⟩ = true ∧
    processItem c1Env c1Item =
      ([Op.download "files/d1/2025-07-19/02-30/a.wav",
        Op.transcribe "files/d1/2025-07-19/02-30/a.wav" false true,
        Op.upsert "d1" "2025-07-19" "02-30" noSpeechSentinel,
        Op.updateStatus "files/d1/2025-07-19/02-30/a.wav" "completed"],
       ItemOutcome.success) := by
  refine ⟨by decide, by decide, by decide⟩

/-- C1, amended: for every item whose recognition returns an empty stripped
transcript with no silence signal, the quota classification flag is
computed under exactly the stated condition — true precisely when the JST
hour is before 9 — but it is only logged: with an acknowledged upsert the
stored transcript is the no-speech sentinel and the persisted status
becomes completed at every hour. -/
theorem C1_quota_flag_only_logged (env : BatchEnv) (it : WorkItem)
    (res : TranscribeRes)
    (hdev : it.deviceId ≠ restrictedDeviceId)
    (hfetch : env.fetch it.filePath = FetchOutcome.ok res)
    (hempty : pyStrip res.transcription = "")
    (hflag : res.noSpeechDetected = false)
    (hack : env.upsertAck it.filePath = true) :
    quotaSuspect env.jstHour res = decide (env.jstHour < 9) ∧
    processItem env it =
      ([Op.download it.filePath, Op.transcribe it.filePath false true,
        Op.upsert it.deviceId it.localDate it.timeBlock noSpeechSentinel,
        Op.updateStatus it.filePath "completed"], ItemOutcome.success) := by
  have hb : (it.deviceId == restrictedDeviceId) = false := beq_eq_false_iff_ne.mpr hdev
  constructor
  · simp [quotaSuspect, hempty, hflag]
  · have h1 : processItem env it = processItemMain env it := by
      unfold processItem
      rw [hb]
      simp
    rw [h1]
    simp [processItemMain, hfetch, hack, finalTranscription, hempty]

/-- C1, witness: the amended theorem applied to the hour-8 environment. -/
theorem C1_quota_flag_only_logged_witness :
    c1Item.deviceId ≠ restrictedDeviceId ∧
    c1Env.fetch c1Item.filePath = FetchOutcome.ok ⟨"", false⟩ ∧
    pyStrip "" = "" ∧
    c1Env.upsertAck c1Item.filePath = true ∧
    (quotaSuspect c1Env.jstHour ⟨"", false⟩ = decide (c1Env.jstHour < 9) ∧
     processItem c1Env c1Item =
       ([Op.download c1Item.filePath, Op.transcribe c1Item.filePath false true,
         Op.upsert c1Item.deviceId c1Item.localDate c1Item.timeBlock noSpeechSentinel,
         Op.updateStatus c1Item.filePath "completed"], ItemOutcome.success)) :=
  ⟨by decide, rfl, by decide, rfl,
   C1_quota_flag_only_logged c1Env c1Item ⟨"", false⟩ (by decide) rfl (by decide) rfl rfl⟩

/-- Concrete environment for claim C6: recognition reports an explicit
silence signal and the upsert is acknowledged. -/
def c6Env : BatchEnv :=
  { audioTable := [], queryFails := false,
    fetch := fun _ => FetchOutcome.ok ⟨"", true⟩,
    upsertAck := fun _ => true, jstHour := 14 }

/-- The work item processed in the C6 scenario. -/
def c6Item : WorkItem :=
  ⟨"files/d2/2025-07-19/15-00/b.wav", "d2", "2025-07-19", "15-00"⟩

/-- C6: for every item whose result has an empty stripped transcript with
the vendor silence signal set, the stored transcript row carries the
no-speech sentinel string rather than an empty string, and the status
update issued for the artifact is completed. -/
theorem C6_sentinel_stored_completed (env : BatchEnv) (it : WorkItem)
    (res : TranscribeRes)
    (hdev : it.deviceId ≠ restrictedDeviceId)
    (hfetch : env.fetch it.filePath = FetchOutcome.ok res)
    (hempty : pyStrip res.transcription = "")
    (hflag : res.noSpeechDetected = true)
    (hack : env.upsertAck it.filePath = true) :
    finalTranscription res = noSpeechSentinel ∧
    processItem env it =
      ([Op.download it.filePath, Op.transcribe it.filePath false true,
        Op.upsert it.deviceId it.localDate it.timeBlock noSpeechSentinel,
        Op.updateStatus it.filePath "completed"], ItemOutcome.success) := by
  have hb : (it.deviceId == restrictedDeviceId) = false := beq_eq_false_iff_ne.mpr hdev
  have hfin : finalTranscription res = noSpeechSentinel := by
    simp [finalTranscription, hempty]
  refine ⟨hfin, ?_⟩
  have h1 : processItem env it = processItemMain env it := by
    unfold processItem
    rw [hb]
    simp
  rw [h1]
  simp [processItemMain, hfetch, hack, hfin]

/-- C6, witness: the theorem applied to the explicit-silence
environment. -/
theorem C6_sentinel_stored_completed_witness :
    c6Item.deviceId ≠ restrictedDeviceId ∧
    c6Env.fetch c6Item.filePath = FetchOutcome.ok ⟨"", true⟩ ∧
    pyStrip "" = "" ∧
    c6Env.upsertAck c6Item.filePath = true ∧
    (finalTranscription ⟨"", true⟩ = noSpeechSentinel ∧
     processItem c6Env c6Item =
       ([Op.download c6Item.filePath, Op.transcribe c6Item.filePath false true,
         Op.upsert c6Item.deviceId c6Item.localDate c6Item.timeBlock noSpeechSentinel,
         Op.updateStatus c6Item.filePath "completed"], ItemOutcome.success)) :=
  ⟨by decide, rfl, by decide, rfl,
   C6_sentinel_stored_completed c6Env c6Item ⟨"", true⟩ (by decide) rfl (by decide) rfl rfl⟩

/-- Concrete environment for claim C7; its fetch and upsert responses are
irrelevant because the blackout gate fires first. -/
def c7Env : BatchEnv :=
  { audioTable := [], queryFails := false,
    fetch := fun _ => FetchOutcome.ok ⟨"x", false⟩,
    upsertAck := fun _ => true, jstHour := 14 }

/-- A work item of the restricted device in a blacked-out hour. -/
def c7Item : WorkItem :=
  ⟨"files/9f7d6e27-98c3-4c19-bdfb-f7fda58b9a93/2025-07-19/23-00/a.wav",
   "9f7d6e27-98c3-4c19-bdfb-f7fda58b9a93", "2025-07-19", "23-00"⟩

/-- C7: an item of the restricted device whose time-block hour is in the
blackout set is marked skipped and its pipeline trace holds nothing else —
no download, no recognition call and no upsert ever occur for it. -/
theorem C7_blackout_skips (env : BatchEnv) (it : WorkItem) (h : Nat)
    (hdev : it.deviceId = restrictedDeviceId)
    (hparse : timeBlockHour it.timeBlock = some h)
    (hskip : h ∈ restrictedSkipHours) :
    processItem env it = ([Op.updateStatus it.filePath "skipped"], ItemOutcome.skipped) ∧
    (processItem env it).1.countP (fun o => Op.isDownload o) = 0 ∧
    (processItem env it).1.countP (fun o => Op.isTranscribe o) = 0 ∧
    (processItem env it).1.countP (fun o => Op.isUpsert o) = 0 := by
  have hb : (it.deviceId == restrictedDeviceId) = true := by
    simp [hdev]
  have h1 : processItem env it =
      ([Op.updateStatus it.filePath "skipped"], ItemOutcome.skipped) := by
    unfold processItem
    rw [hb, hparse]
    simp [hskip]
  refine ⟨h1, ?_, ?_, ?_⟩ <;> rw [h1] <;>
    simp [Op.isDownload, Op.isTranscribe, Op.isUpsert]

/-- C7, witness: the theorem applied to the restricted device at hour
23. -/
theorem C7_blackout_skips_witness :
    c7Item.deviceId = restrictedDeviceId ∧
    timeBlockHour c7Item.timeBlock = some 23 ∧
    23 ∈ restrictedSkipHours ∧
    (processItem c7Env c7Item =
       ([Op.updateStatus c7Item.filePath "skipped"], ItemOutcome.skipped) ∧
     (processItem c7Env c7Item).1.countP (fun o => Op.isDownload o) = 0 ∧
     (processItem c7Env c7Item).1.countP (fun o => Op.isTranscribe o) = 0 ∧
     (processItem c7Env c7Item).1.countP (fun o => Op.isUpsert o) = 0) :=
  ⟨rfl, by decide, by decide,
   C7_blackout_skips c7Env c7Item 23 rfl (by decide) (by decide)⟩

/-- Decidable equality of batch run outcomes, used to evaluate concrete
runs in witnesses. -/
instance exceptDecEq {ε α : Type} [DecidableEq ε] [DecidableEq α] :
    DecidableEq (Except ε α)
  | .error e, .error f =>
      if h : e = f then .isTrue (by rw [h]) else .isFalse (by simp [h])
  | .error _, .ok _ => .isFalse (by simp)
  | .ok _, .error _ => .isFalse (by simp)
  | .ok a, .ok b =>
      if h : a = b then .isTrue (by rw [h]) else .isFalse (by simp [h])

/-- C9: whenever the batch resolves at all — however many individual items
fail, even all of them — the returned result carries the top-level status
success; per-item failures only show up in the error count and lists. -/
theorem C9_batch_status_success (env : BatchEnv) (req : FetchRequest)
    (ops : List Op) (r : BatchResult)
    (hrun : fetchAndTranscribeFiles env req = Except.ok (ops, r)) :
    r.status = "success" := by
  simp only [fetchAndTranscribeFiles] at hrun
  split_ifs at hrun
  all_goals simp only [Except.ok.injEq, Prod.mk.injEq] at hrun
  all_goals obtain ⟨hops, hr⟩ := hrun
  all_goals rw [← hr]

/-- Concrete environment for claim C9: the single resolved item errors
during recognition. -/
def c9Env : BatchEnv :=
  { audioTable := [], queryFails := false,
    fetch := fun _ => FetchOutcome.recognizeError "boom",
    upsertAck := fun _ => true, jstHour := 12 }

/-- The explicit-paths request of the C9 scenario. -/
def c9Req : FetchRequest :=
  { filePaths := some ["files/d1/2025-07-19/14-30/a.wav"] }

/-- The work item the C9 request resolves to. -/
def c9ItemFail : WorkItem :=
  ⟨"files/d1/2025-07-19/14-30/a.wav", "d1", "2025-07-19", "14-30"⟩

/-- The trace of the C9 run. -/
def c9Ops : List Op :=
  [Op.download "files/d1/2025-07-19/14-30/a.wav",
   Op.transcribe "files/d1/2025-07-19/14-30/a.wav" false true,
   Op.updateStatus "files/d1/2025-07-19/14-30/a.wav" "failed"]

/-- The result of the C9 run: every item errored, status still success. -/
def c9Res : BatchResult := ⟨"success", 1, 0, 1, [], [c9ItemFail]⟩

/-- C9, witness: a batch in which every item errors still returns the
top-level status success. -/
theorem C9_batch_status_success_witness :
    fetchAndTranscribeFiles c9Env c9Req = Except.ok (c9Ops, c9Res) ∧
    c9Res.errorCount = 1 ∧ c9Res.pendingProcessed = 0 ∧
    c9Res.status = "success" :=
  ⟨by decide, by decide, by decide,
   C9_batch_status_success c9Env c9Req c9Ops c9Res (by decide)⟩

/-- Every operation of a single-item pass through the main phase is either
a non-recognition call or a recognition call with detailed false and
high accuracy true. -/
lemma processItemMain_goodCalls (env : BatchEnv) (it : WorkItem) :
    (processItemMain env it).1.all Op.goodRecognizeCall = true := by
  unfold processItemMain
  split
  · simp [Op.goodRecognizeCall]
  · simp [Op.goodRecognizeCall]
  · cases hu : env.upsertAck it.filePath <;> simp [hu, Op.goodRecognizeCall]

/-- Every operation of a single-item pass is either a non-recognition call
or a recognition call with detailed false and high accuracy true. -/
lemma processItem_goodCalls (env : BatchEnv) (it : WorkItem) :
    (processItem env it).1.all Op.goodRecognizeCall = true := by
  unfold processItem
  split
  · split
    · simp [Op.goodRecognizeCall]
    · split
      · simp [Op.goodRecognizeCall]
      · exact processItemMain_goodCalls env it
  · exact processItemMain_goodCalls env it

/-- The whole batch trace only makes recognition calls with detailed false
and high accuracy true. -/
lemma runItems_goodCalls (env : BatchEnv) (items : List WorkItem) :
    (runItems env items).1.all Op.goodRecognizeCall = true := by
  induction items with
  | nil => rfl
  | cons it rest ih =>
      simp [runItems, List.all_append, processItem_goodCalls, ih]

/-- C10: every recognition call issued by a resolving batch run is invoked
with detailed false and high accuracy true, and the high-accuracy
configuration carries the 600-second wait bound where the normal one
carries 300. -/
theorem C10_batch_calls_high_accuracy (env : BatchEnv) (req : FetchRequest)
    (ops : List Op) (r : BatchResult)
    (hrun : fetchAndTranscribeFiles env req = Except.ok (ops, r)) :
    ops.all Op.goodRecognizeCall = true ∧
    recognizeTimeout true = 600 ∧ recognizeTimeout false = 300 := by
  refine ⟨?_, rfl, rfl⟩
  simp only [fetchAndTranscribeFiles] at hrun
  split_ifs at hrun
  all_goals simp only [Except.ok.injEq, Prod.mk.injEq] at hrun
  all_goals obtain ⟨hops, hr⟩ := hrun
  all_goals rw [← hops]
  · rfl
  · exact runItems_goodCalls _ _
  · exact runItems_goodCalls _ _

/-- Concrete environment for claim C10: one item resolves and succeeds. -/
def c10Env : BatchEnv :=
  { audioTable := [], queryFails := false,
    fetch := fun _ => FetchOutcome.ok ⟨"hi", false⟩,
    upsertAck := fun _ => true, jstHour := 12 }

/-- The explicit-paths request of the C10 scenario. -/
def c10Req : FetchRequest :=
  { filePaths := some ["files/d1/2025-07-19/14-30/a.wav"] }

/-- The work item the C10 request resolves to. -/
def c10Item : WorkItem :=
  ⟨"files/d1/2025-07-19/14-30/a.wav", "d1", "2025-07-19", "14-30"⟩

/-- The trace of the C10 run; its recognition call carries detailed false
and high accuracy true. -/
def c10Ops : List Op :=
  [Op.download "files/d1/2025-07-19/14-30/a.wav",
   Op.transcribe "files/d1/2025-07-19/14-30/a.wav" false true,
   Op.upsert "d1" "2025-07-19" "14-30" "hi",
   Op.updateStatus "files/d1/2025-07-19/14-30/a.wav" "completed"]

/-- The result of the C10 run. -/
def c10Res : BatchResult := ⟨"success", 1, 1, 0, [c10Item], []⟩

/-- C10, witness: the theorem applied to a concrete run whose trace holds a
recognition call. -/
theorem C10_batch_calls_high_accuracy_witness :
    fetchAndTranscribeFiles c10Env c10Req = Except.ok (c10Ops, c10Res) ∧
    (c10Ops.all Op.goodRecognizeCall = true ∧
     recognizeTimeout true = 600 ∧ recognizeTimeout false = 300) :=
  ⟨by decide,
   C10_batch_calls_high_accuracy c10Env c10Req c10Ops c10Res (by decide)⟩
